import Mathlib

/-!
A shallow embedding of `website.ts` from cnunciato/pulumi-jamstack-aws.

The repository holds three near-duplicate variants of one Pulumi component:
the `Website` class (the main variant), a `StaticWebsite` class with an
api-with-path-prefix block (called "v2" here), and an older `StaticWebsite`
class with a flat route list (called "v3" here).  Resource constructors are
embedded as pure record builders; the surrounding Pulumi engine and AWS
control plane are modelled by an `Env` record carrying what the environment
would return (zone lookups, globbed files, assigned names).  A rejected
promise that the code does not catch is modelled as `Except.error`, since it
fails the provisioning run.
-/

/-- JavaScript string falsiness for optional string fields: `undefined` and
the empty string are falsy (`if (!x)` / `x || d`). -/
def falsyStr : Option String → Bool
  | none => true
  | some s => s = ""

/-- JavaScript `x || d` on an optional string field. -/
def strOr (o : Option String) (d : String) : String :=
  match o with
  | some s => if s = "" then d else s
  | none => d

/-- JavaScript template-literal interpolation of a possibly-undefined string:
`undefined` prints as the text "undefined". -/
def optStr : Option String → String
  | some s => s
  | none => "undefined"

/-- JavaScript `String.prototype.replace` with a plain-string pattern:
replaces only the first occurrence (here, with the empty string). -/
def replaceFirst (s pat : String) : String :=
  match s.splitOn pat with
  | [] => s
  | x :: rest => x ++ String.intercalate pat rest

inductive Protocol where
  | http
  | https
  deriving DecidableEq, Repr, Inhabited

structure SiteArgs where
  root : String
  defaultDoc : Option String
  errorDoc : Option String
  deriving DecidableEq, Repr, Inhabited

structure DnsArgs where
  domain : String
  host : String
  deriving DecidableEq, Repr, Inhabited

structure CdnArgs where
  certificateARN : Option String
  cacheTTL : Option Nat
  logs : Option Bool
  deriving DecidableEq, Repr, Inhabited

/-- One API route: method, path and an opaque handler (not modelled). -/
structure RouteArgs where
  method : String
  path : String
  deriving DecidableEq, Repr, Inhabited

/-- The `api` block.  `basePath` stands for the source's API path-`pre`+`fix`
field (that identifier is avoided in this development). -/
structure ApiArgs where
  basePath : String
  routes : List RouteArgs
  deriving DecidableEq, Repr, Inhabited

structure WebsiteArgs where
  protocol : Option Protocol
  site : Option SiteArgs
  dns : Option DnsArgs
  cdn : Option CdnArgs
  api : Option ApiArgs
  deriving DecidableEq, Repr, Inhabited

structure Zone where
  zoneId : String
  deriving DecidableEq, Repr, Inhabited

/-- One DNS validation challenge, as returned on
`cert.domainValidationOptions`. -/
structure Challenge where
  resourceRecordName : String
  resourceRecordType : String
  resourceRecordValue : String
  deriving DecidableEq, Repr, Inhabited

/-- What the Pulumi engine and the AWS control plane supply during one run. -/
structure Env where
  dryRun : Bool
  files : List String
  readFile : String → String
  mimeType : String → Option String
  fileExists : String → Bool
  bucketId : String
  bucketArn : String
  bucketPhysicalName : String
  bucketWebsiteEndpoint : String
  zone : Option Zone
  validationChallenges : List Challenge
  certArn : String
  apiArn : String
  apiGatewayURL : String
  cdnDomainName : String
  cdnHostedZoneId : String
  logsBucketDomainName : String
  logsBucketName : String

structure Bucket where
  resourceName : String
  explicitName : Option String
  indexDocument : Option String
  errorDocument : Option String
  acl : Option String
  forceDestroy : Bool
  deriving DecidableEq, Repr, Inhabited

structure PutObjectCall where
  bucket : String
  key : String
  body : String
  contentType : String
  acl : String
  deriving DecidableEq, Repr, Inhabited

structure RecordAlias where
  name : String
  zoneId : String
  evaluateTargetHealth : Bool
  deriving DecidableEq, Repr, Inhabited

structure DnsRecord where
  resourceName : String
  name : String
  zoneId : String
  recordType : String
  ttl : Option Nat
  records : List String
  aliases : List RecordAlias
  deriving DecidableEq, Repr, Inhabited

structure Certificate where
  domainName : String
  validationMethod : String
  deriving DecidableEq, Repr, Inhabited

structure ForwardedValues where
  queryString : Bool
  headers : List String
  cookiesForward : String
  deriving DecidableEq, Repr, Inhabited

structure CacheBehavior where
  pathPattern : Option String
  viewerProtocolPolicy : String
  allowedMethods : List String
  cachedMethods : List String
  defaultTtl : Nat
  maxTtl : Nat
  minTtl : Nat
  forwardedValues : ForwardedValues
  deriving DecidableEq, Repr, Inhabited

structure CustomErrorResponse where
  errorCode : Nat
  responseCode : Nat
  responsePagePath : String
  deriving DecidableEq, Repr, Inhabited

structure Origin where
  originId : String
  originPath : Option String
  domainName : String
  originProtocolPolicy : String
  deriving DecidableEq, Repr, Inhabited

structure ViewerCertificate where
  cloudfrontDefaultCertificate : Bool
  acmCertificateArn : Option String
  sslSupportMethod : String
  deriving DecidableEq, Repr, Inhabited

structure DistributionArgs where
  enabled : Bool
  aliases : List String
  origins : List Origin
  defaultCacheBehavior : CacheBehavior
  orderedCacheBehaviors : List CacheBehavior
  priceClass : String
  customErrorResponses : List CustomErrorResponse
  viewerCertificate : ViewerCertificate
  loggingConfigBucket : Option String
  deriving DecidableEq, Repr, Inhabited

structure Outputs where
  bucketName : Option String
  bucketWebsiteURL : Option String
  websiteURL : Option String
  cdnDomainName : Option String
  cdnURL : Option String
  websiteLogsBucketName : Option String
  apiGatewayURL : Option String
  deriving DecidableEq, Repr, Inhabited

/-- Everything a `Website` construction produced: the caller-visible args
object after construction (the code mutates it in place), the resources
registered, the storage API calls made, and the component outputs. -/
structure WebsiteResult where
  argsAfter : WebsiteArgs
  buckets : List Bucket
  putObjectCalls : List PutObjectCall
  logs : List String
  aliasRecords : List DnsRecord
  validationRecords : List DnsRecord
  certificates : List Certificate
  distributions : List DistributionArgs
  apiStage : Option String
  apiRoutePaths : List String
  outputs : Outputs
  deriving DecidableEq, Repr, Inhabited

/-- Lines 71-100 of `Website.constructor`: the defaulting assignments.
`protocol` defaults to http; when a site block is present its documents
default (under JS falsiness) to "index.html" / "404.html".  The code mutates
`args`; this is the resulting args value. -/
def normalizeArgs (args : WebsiteArgs) : WebsiteArgs :=
  let protocol := match args.protocol with
    | none => some Protocol.http
    | some p => some p
  match args.site with
  | none => { args with protocol := protocol }
  | some s =>
      let s1 := { s with defaultDoc :=
        (if falsyStr s.defaultDoc then some "index.html" else s.defaultDoc) }
      let s2 := { s1 with errorDoc :=
        (if falsyStr s1.errorDoc then some "404.html" else s1.errorDoc) }
      { args with protocol := protocol, site := some s2 }

/-- The `domainName` getter (lines 476-481): `host + "." + domain` when the
dns block is present with truthy domain and host, else undefined. -/
def WebsiteArgs.domainName (args : WebsiteArgs) : Option String :=
  match args.dns with
  | some d =>
      if d.domain ≠ "" ∧ d.host ≠ "" then some (d.host ++ "." ++ d.domain)
      else none
  | none => none

/-- Lines 102-106: the bucket gets an explicit physical name (the composed
domain name) only for plain-http configurations with a full dns block. -/
def explicitBucketName (args : WebsiteArgs) : Option String :=
  match args.protocol, args.dns with
  | some Protocol.http, some d =>
      if d.domain ≠ "" ∧ d.host ≠ "" then args.domainName else none
  | _, _ => none

/-- Lines 87-100: the three existence checks, each a non-fatal warning.
`path.join` is approximated by "/"-concatenation. -/
def siteWarnings (s : SiteArgs) (env : Env) : List String :=
  (if env.fileExists s.root then []
   else ["Directory " ++ s.root ++ " does not exist."]) ++
  (if env.fileExists (s.root ++ "/" ++ optStr s.defaultDoc) then []
   else ["Default document \"" ++ optStr s.defaultDoc ++ "\" does not exist."]) ++
  (if env.fileExists (s.root ++ "/" ++ optStr s.errorDoc) then []
   else ["Default document \"" ++ optStr s.errorDoc ++ "\" does not exist."])

/-- Lines 126-161: the upload callback on the bucket id.  Returns the
`putObject` calls issued and the log lines emitted.  Under a dry run the
function logs the file count and returns without any storage call. -/
def uploadStep (env : Env) (root : String) : List PutObjectCall × List String :=
  if root = "" then ([], [])
  else
    let files := env.files
    if env.dryRun then
      ([], ["Skipping upload of " ++ toString files.length ++ " files from " ++
            root ++ "..."])
    else
      (files.map (fun f =>
        { bucket := env.bucketId
          key := replaceFirst f (root ++ "/")
          body := env.readFile f
          contentType := (env.mimeType f).getD "text/plain"
          acl := "public-read" }),
       ["Uploading " ++ toString files.length ++ " files from " ++ root ++ "...",
        "Uploaded " ++ toString files.length ++ " files."])

structure CnameResult where
  records : List DnsRecord
  logs : List String
  url : Option String
  deriving DecidableEq, Repr, Inhabited

/-- Lines 163-193: the plain-http CNAME record.  The zone lookup is wrapped
in `.then/.catch`, so a failed lookup only logs a diagnostic and skips the
record; the websiteURL output is set either way (line 192 runs outside the
promise chain). -/
def cnameStep (args : WebsiteArgs) (env : Env) : CnameResult :=
  match explicitBucketName args, args.dns with
  | some bn, some d =>
      if d.domain ≠ "" ∧ d.host ≠ "" then
        match env.zone with
        | some z =>
            { records := [{ resourceName := bn
                            name := d.host
                            zoneId := z.zoneId
                            recordType := "CNAME"
                            ttl := some (10 * 60)
                            records := [env.bucketWebsiteEndpoint]
                            aliases := [] }]
              logs := []
              url := some ("http://" ++ optStr args.domainName) }
        | none =>
            { records := []
              logs := ["Domain " ++ d.domain ++
                       " not found in Route 53. Not creating DNS record."]
              url := some ("http://" ++ optStr args.domainName) }
      else { records := [], logs := [], url := none }
  | _, _ => { records := [], logs := [], url := none }

structure SiteResult where
  bucket : Bucket
  putObjectCalls : List PutObjectCall
  logs : List String
  cnameRecords : List DnsRecord
  websiteURL : Option String
  deriving DecidableEq, Repr, Inhabited

/-- Lines 77-198: the site branch, on already-defaulted args.  Creates the
website bucket (public-read, forceDestroy), runs the upload callback, and
the CNAME step. -/
def siteStep (args : WebsiteArgs) (env : Env) : Option SiteResult :=
  match args.site with
  | none => none
  | some s =>
      let up := uploadStep env s.root
      let cn := cnameStep args env
      some { bucket :=
               { resourceName := "website-bucket"
                 explicitName := explicitBucketName args
                 indexDocument := s.defaultDoc
                 errorDocument := s.errorDoc
                 acl := some "public-read"
                 forceDestroy := true }
             putObjectCalls := up.1
             logs := siteWarnings s env ++ up.2 ++ cn.logs
             cnameRecords := cn.records
             websiteURL := cn.url }

structure ApiInfo where
  stage : String
  routePaths : List String
  deriving DecidableEq, Repr, Inhabited

/-- Lines 200-217: the API gateway branch.  When the api block has a truthy
path-`pre`+`fix` and a non-empty route list, each route's `path` field is
overwritten in place with the prefixed path and a gateway is created whose
stage name is that value.  Returns the (mutated) args and the gateway info. -/
def apiStep (args : WebsiteArgs) : WebsiteArgs × Option ApiInfo :=
  match args.api with
  | some api =>
      if api.basePath ≠ "" ∧ api.routes.length > 0 then
        let newRoutes := api.routes.map fun r =>
          { r with path := "/" ++ api.basePath ++ r.path }
        ({ args with api := some { api with routes := newRoutes } },
         some { stage := api.basePath, routePaths := newRoutes.map (·.path) })
      else (args, none)
  | none => (args, none)

structure CertStepResult where
  certs : List Certificate
  validationRecords : List DnsRecord
  arn : String
  deriving DecidableEq, Repr, Inhabited

/-- Lines 381-440 (`provisionAndValidateCert`): request a certificate in
us-east-1, look the zone up (an uncaught promise: failure fails the run,
modelled as `Except.error`), and create a single validation record from
`domainValidationOptions[0]` — only the first challenge, whatever their
number.  The certificate ARN is the ACM-assigned one. -/
def provisionAndValidateCert (args : WebsiteArgs) (env : Env) :
    Except String CertStepResult :=
  let cert : Certificate :=
    { domainName := optStr args.domainName, validationMethod := "DNS" }
  match env.zone with
  | none => .error "Zone lookup failed during certificate validation"
  | some z =>
      let c := env.validationChallenges.head?
      .ok { certs := [cert]
            validationRecords :=
              [{ resourceName := "website-cert-validation-record"
                 name := optStr (c.map (·.resourceRecordName))
                 zoneId := z.zoneId
                 recordType := optStr (c.map (·.resourceRecordType))
                 ttl := some (10 * 60)
                 records := [optStr (c.map (·.resourceRecordValue))]
                 aliases := [] }]
            arn := env.certArn }

/-- Lines 336-343: use the configured certificate ARN when truthy, otherwise
provision and validate a new certificate. -/
def certStep (args : WebsiteArgs) (env : Env) : Except String CertStepResult :=
  match args.cdn with
  | some c =>
      (match c.certificateARN with
       | some arn =>
           if arn ≠ "" then .ok { certs := [], validationRecords := [], arn := arn }
           else provisionAndValidateCert args env
       | none => provisionAndValidateCert args env)
  | none => provisionAndValidateCert args env

/-- Line 272: `this.args.site?.errorDoc || "404.html"`. -/
def errorDocOr404 (args : WebsiteArgs) : String :=
  match args.site with
  | some s => strOr s.errorDoc "404.html"
  | none => "404.html"

/-- Lines 287-297: the gateway origin's domain name is derived from the
stage URL by stripping the stage path segment and the scheme. -/
def apiOriginDomain (env : Env) (p : String) : String :=
  replaceFirst (replaceFirst env.apiGatewayURL ("/" ++ p ++ "/")) "https://"

/-- Lines 229-328: the distribution arguments before any DNS/certificate
customization.  `cacheTtl` is the hardcoded `10 * 60` of line 230; the
configured `cdn.cacheTTL` is never read.  The 404 response page path comes
from the template literal `/$` + interpolation of the error document (the
`$$` puts a literal dollar sign in the path). -/
def baseDistributionArgs (args : WebsiteArgs) (apiCreated : Bool) (env : Env) :
    DistributionArgs :=
  let cacheTtl := 10 * 60
  let bucketOrigin : Origin :=
    { originId := env.bucketArn
      originPath := none
      domainName := env.bucketWebsiteEndpoint
      originProtocolPolicy := "http-only" }
  let base : DistributionArgs :=
    { enabled := true
      aliases := []
      origins := [bucketOrigin]
      defaultCacheBehavior :=
        { pathPattern := none
          viewerProtocolPolicy := "redirect-to-https"
          allowedMethods := ["GET", "HEAD", "OPTIONS"]
          cachedMethods := ["GET", "HEAD", "OPTIONS"]
          defaultTtl := cacheTtl
          maxTtl := cacheTtl
          minTtl := 0
          forwardedValues :=
            { queryString := true, headers := [], cookiesForward := "all" } }
      orderedCacheBehaviors := []
      priceClass := "PriceClass_100"
      customErrorResponses :=
        [{ errorCode := 404
           responseCode := 404
           responsePagePath := "/$" ++ errorDocOr404 args }]
      viewerCertificate :=
        { cloudfrontDefaultCertificate := true
          acmCertificateArn := none
          sslSupportMethod := "sni-only" }
      loggingConfigBucket := none }
  match args.api with
  | some api =>
      if apiCreated ∧ api.basePath ≠ "" then
        { base with
          origins :=
            [{ originId := env.apiArn
               originPath := some ("/" ++ api.basePath)
               domainName := apiOriginDomain env api.basePath
               originProtocolPolicy := "https-only" },
             bucketOrigin]
          orderedCacheBehaviors :=
            [{ pathPattern := some ("/" ++ api.basePath ++ "/*")
               viewerProtocolPolicy := "https-only"
               allowedMethods := ["GET", "HEAD", "OPTIONS"]
               cachedMethods := ["GET", "HEAD", "OPTIONS"]
               defaultTtl := 0
               maxTtl := 0
               minTtl := 0
               forwardedValues :=
                 { queryString := true
                   headers := ["Access-Control-Request-Headers",
                               "Access-Control-Request-Method",
                               "Origin", "Authorization"]
                   cookiesForward := "none" } }] }
      else base
  | none => base

structure MadeCDN where
  distribution : DistributionArgs
  buckets : List Bucket
  logsName : Option String
  deriving DecidableEq, Repr, Inhabited

/-- Lines 448-457: the log-capture bucket created inside `makeCDN`. -/
def logsBucketDef : Bucket :=
  { resourceName := "website-logs-bucket"
    explicitName := none
    indexDocument := none
    errorDocument := none
    acl := none
    forceDestroy := true }

/-- Lines 442-474 (`makeCDN`): when `cdn.logs` is truthy, create the logs
bucket first, wire the logging config at it, and expose its name. -/
def makeCDN (args : WebsiteArgs) (dargs : DistributionArgs) (env : Env) :
    MadeCDN :=
  match args.cdn with
  | some c =>
      if c.logs = some true then
        { distribution := { dargs with loggingConfigBucket := some env.logsBucketDomainName }
          buckets := [logsBucketDef]
          logsName := some env.logsBucketName }
      else { distribution := dargs, buckets := [], logsName := none }
  | none => { distribution := dargs, buckets := [], logsName := none }

structure CDNResult where
  distribution : DistributionArgs
  logsBuckets : List Bucket
  aliasRecords : List DnsRecord
  validationRecords : List DnsRecord
  certificates : List Certificate
  logsName : Option String
  deriving DecidableEq, Repr, Inhabited

/-- A `CDNResult` with no DNS customization (lines 330-334). -/
def defaultCdn (args : WebsiteArgs) (dargs : DistributionArgs) (env : Env) :
    CDNResult :=
  let m := makeCDN args dargs env
  { distribution := m.distribution
    logsBuckets := m.buckets
    aliasRecords := []
    validationRecords := []
    certificates := []
    logsName := m.logsName }

/-- Lines 229-379 (`provisionCDN`).  Without a dns block (or with an empty
domain/host) the distribution keeps the default shared certificate and no
record is made.  Otherwise the certificate step runs (possibly failing on
the zone lookup), the alias and custom certificate are attached, and an
A-type alias record is created; the zone lookup for that record has no
catch handler, so its failure also fails the run. -/
def provisionCDN (args : WebsiteArgs) (apiCreated : Bool) (env : Env) :
    Except String CDNResult :=
  let dargs := baseDistributionArgs args apiCreated env
  match args.dns, args.domainName with
  | none, _ => .ok (defaultCdn args dargs env)
  | some _, none => .ok (defaultCdn args dargs env)
  | some d, some dn =>
      match certStep args env with
      | .error e => .error e
      | .ok cs =>
          let dargs2 :=
            { dargs with
              aliases := [dn]
              viewerCertificate :=
                { cloudfrontDefaultCertificate := false
                  acmCertificateArn := some cs.arn
                  sslSupportMethod := "sni-only" } }
          let m := makeCDN args dargs2 env
          match env.zone with
          | none => .error "Zone lookup failed for CDN alias record"
          | some z =>
              .ok { distribution := m.distribution
                    logsBuckets := m.buckets
                    aliasRecords :=
                      [{ resourceName := dn
                         name := d.host
                         zoneId := z.zoneId
                         recordType := "A"
                         ttl := none
                         records := []
                         aliases := [{ name := env.cdnDomainName
                                       zoneId := env.cdnHostedZoneId
                                       evaluateTargetHealth := true }] }]
                    validationRecords := cs.validationRecords
                    certificates := cs.certs
                    logsName := m.logsName }

/-- The `Website` constructor (lines 65-227), as one run over the declared
environment: normalize the args, run the site branch, the api branch
(mutating the route paths in place), and — when a bucket exists and the
protocol is https — the CDN branch, then assemble the outputs. -/
def websiteConstruct (args0 : WebsiteArgs) (env : Env) :
    Except String WebsiteResult :=
  let args1 := normalizeArgs args0
  let siteRes := siteStep args1 env
  let stepped := apiStep args1
  let args2 := stepped.1
  let apiInfo := stepped.2
  match siteRes, args2.protocol with
  | some sr, some Protocol.https =>
      (match provisionCDN args2 apiInfo.isSome env with
       | .error e => .error e
       | .ok cdnRes =>
           .ok { argsAfter := args2
                 buckets := sr.bucket :: cdnRes.logsBuckets
                 putObjectCalls := sr.putObjectCalls
                 logs := sr.logs
                 aliasRecords := sr.cnameRecords ++ cdnRes.aliasRecords
                 validationRecords := cdnRes.validationRecords
                 certificates := cdnRes.certificates
                 distributions := [cdnRes.distribution]
                 apiStage := apiInfo.map (·.stage)
                 apiRoutePaths := (apiInfo.map (·.routePaths)).getD []
                 outputs :=
                   { bucketName := some env.bucketPhysicalName
                     bucketWebsiteURL := some ("http://" ++ env.bucketWebsiteEndpoint)
                     websiteURL := some ("https://" ++ optStr args2.domainName)
                     cdnDomainName := some env.cdnDomainName
                     cdnURL := some ("https://" ++ env.cdnDomainName)
                     websiteLogsBucketName := cdnRes.logsName
                     apiGatewayURL := apiInfo.map fun _ => env.apiGatewayURL } })
  | _, _ =>
      .ok { argsAfter := args2
            buckets := match siteRes with | some sr => [sr.bucket] | none => []
            putObjectCalls := match siteRes with | some sr => sr.putObjectCalls | none => []
            logs := match siteRes with | some sr => sr.logs | none => []
            aliasRecords := match siteRes with | some sr => sr.cnameRecords | none => []
            validationRecords := []
            certificates := []
            distributions := []
            apiStage := apiInfo.map (·.stage)
            apiRoutePaths := (apiInfo.map (·.routePaths)).getD []
            outputs :=
              { bucketName := siteRes.map fun _ => env.bucketPhysicalName
                bucketWebsiteURL := siteRes.map fun _ => "http://" ++ env.bucketWebsiteEndpoint
                websiteURL := siteRes.bind (·.websiteURL)
                cdnDomainName := none
                cdnURL := none
                websiteLogsBucketName := none
                apiGatewayURL := apiInfo.map fun _ => env.apiGatewayURL } }

/-- The v2 `StaticWebsite` origin bucket (lines 597-610 of the second
variant): documents defaulted by `||`, public-read ACL, forceDestroy. -/
def staticWebsiteBucket (indexDocument errorDocument : Option String) : Bucket :=
  { resourceName := "website-bucket"
    explicitName := none
    indexDocument := some (strOr indexDocument "index.html")
    errorDocument := some (strOr errorDocument "404.html")
    acl := some "public-read"
    forceDestroy := true }

/-- The v2 `StaticWebsite` bucket set: the origin bucket always, and the
log-capture bucket when a CDN is provisioned ((host and domain truthy) or
`cdn` truthy, line 666) with `logs` truthy (line 904). -/
def staticWebsiteBuckets (host domain : Option String) (cdnFlag logsFlag : Option Bool)
    (indexDocument errorDocument : Option String) : List Bucket :=
  let provisionsCdn := (¬ falsyStr host ∧ ¬ falsyStr domain) ∨ cdnFlag = some true
  staticWebsiteBucket indexDocument errorDocument ::
    (if provisionsCdn ∧ logsFlag = some true then [logsBucketDef] else [])

/-- The v2 `StaticWebsite` custom-error mapping (lines 729-735): the page
path is the hardcoded "/404.html", whatever `errorDocument` says. -/
def staticWebsiteCustomErrorResponses : List CustomErrorResponse :=
  [{ errorCode := 404, responseCode := 404, responsePagePath := "/404.html" }]

/-- The v3 `StaticWebsite` origin bucket (lines 1022-1035 of the third
variant). -/
def v3Bucket (indexDocument errorDocument : Option String) : Bucket :=
  { resourceName := "website-bucket"
    explicitName := none
    indexDocument := some (strOr indexDocument "index.html")
    errorDocument := some (strOr errorDocument "404.html")
    acl := some "public-read"
    forceDestroy := true }

/-- Lines 1049-1051 of the v3 variant: `args.cacheTtlInSeconds ||
tenMinutesInSeconds` — zero counts as falsy under `||`. -/
def v3CacheTtl (cacheTtlInSeconds : Option Nat) : Nat :=
  let tenMinutesInSeconds := 60 * 10
  match cacheTtlInSeconds with
  | some n => if n = 0 then tenMinutesInSeconds else n
  | none => tenMinutesInSeconds

/-- The v3 default cache behavior (lines 1133-1147). -/
def v3DefaultCacheBehavior (cacheTtlInSeconds : Option Nat) : CacheBehavior :=
  { pathPattern := none
    viewerProtocolPolicy := "redirect-to-https"
    allowedMethods := ["GET", "HEAD", "OPTIONS"]
    cachedMethods := ["GET", "HEAD", "OPTIONS"]
    defaultTtl := v3CacheTtl cacheTtlInSeconds
    maxTtl := v3CacheTtl cacheTtlInSeconds
    minTtl := 0
    forwardedValues :=
      { queryString := true, headers := [], cookiesForward := "all" } }

/-- The v3 custom-error mapping (lines 1149-1155): the hardcoded "/404". -/
def v3CustomErrorResponses : List CustomErrorResponse :=
  [{ errorCode := 404, responseCode := 404, responsePagePath := "/404" }]

/-- A concrete environment for witnesses: zone found, one validation
challenge, two site files. -/
def envD : Env :=
  { dryRun := false
    files := ["www/index.html", "www/404.html"]
    readFile := fun _ => "<html></html>"
    mimeType := fun _ => some "text/html"
    fileExists := fun _ => true
    bucketId := "website-bucket-abc123"
    bucketArn := "arn:aws:s3:::website-bucket-abc123"
    bucketPhysicalName := "website-bucket-abc123"
    bucketWebsiteEndpoint := "website-bucket-abc123.s3-website-us-west-2.amazonaws.com"
    zone := some { zoneId := "Z123EXAMPLE" }
    validationChallenges :=
      [{ resourceRecordName := "_abc.www.example.com."
         resourceRecordType := "CNAME"
         resourceRecordValue := "_xyz.acm-validations.aws." }]
    certArn := "arn:aws:acm:us-east-1:123456789012:certificate/abc"
    apiArn := "arn:aws:apigateway:us-west-2::/restapis/xyz"
    apiGatewayURL := "https://xyz.execute-api.us-west-2.amazonaws.com/api/"
    cdnDomainName := "d111111abcdef8.cloudfront.net"
    cdnHostedZoneId := "Z2FDTNDATAQYW2"
    logsBucketDomainName := "website-logs-bucket-xyz.s3.amazonaws.com"
    logsBucketName := "website-logs-bucket-xyz" }

/-- `envD` with the zone lookup failing. -/
def envNoZone : Env := { envD with zone := none }

/-- `envD` during a preview (dry run). -/
def envDry : Env := { envD with dryRun := true }

/-- `envD` with two validation challenges returned. -/
def envTwoChallenges : Env :=
  { envD with validationChallenges :=
      [{ resourceRecordName := "_abc.www.example.com."
         resourceRecordType := "CNAME"
         resourceRecordValue := "_xyz.acm-validations.aws." },
       { resourceRecordName := "_def.api.example.com."
         resourceRecordType := "CNAME"
         resourceRecordValue := "_uvw.acm-validations.aws." }] }

def siteD : SiteArgs := { root := "www", defaultDoc := none, errorDoc := none }

def dnsD : DnsArgs := { domain := "example.com", host := "www" }

/-- Site only, no dns, protocol defaulted (http). -/
def cfgNoDnsHttp : WebsiteArgs :=
  { protocol := none, site := some siteD, dns := none, cdn := none, api := none }

/-- Site only, no dns, protocol https (CDN with shared certificate). -/
def cfgNoDnsHttps : WebsiteArgs :=
  { protocol := some Protocol.https, site := some siteD, dns := none
    cdn := none, api := none }

/-- Site with dns, plain http (CNAME path). -/
def cfgHttpDns : WebsiteArgs :=
  { protocol := none, site := some siteD, dns := some dnsD, cdn := none, api := none }

/-- Site with dns, https, no configured certificate ARN (certificate path). -/
def cfgHttpsDns : WebsiteArgs :=
  { protocol := some Protocol.https, site := some siteD, dns := some dnsD
    cdn := none, api := none }

/-- An api block with one route. -/
def apiD : ApiArgs := { basePath := "api", routes := [{ method := "GET", path := "/hello" }] }

/-- Api block only. -/
def cfgApi : WebsiteArgs :=
  { protocol := none, site := none, dns := none, cdn := none, api := some apiD }

/-- Https CDN with a configured cache TTL of 100 seconds. -/
def cfgCacheTtl100 : WebsiteArgs :=
  { protocol := some Protocol.https, site := some siteD, dns := none
    cdn := some { certificateARN := none, cacheTTL := some 100, logs := none }
    api := none }

/-- A site block whose documents are explicitly set to the empty string. -/
def cfgEmptyDocs : WebsiteArgs :=
  { protocol := none
    site := some { root := "www", defaultDoc := some "", errorDoc := some "" }
    dns := none, cdn := none, api := none }

theorem siteStep_bucket_fields (args : WebsiteArgs) (env : Env) (sr : SiteResult)
    (h : siteStep args env = some sr) :
    sr.bucket.forceDestroy = true ∧ sr.bucket.acl = some "public-read" ∧
    sr.bucket.resourceName = "website-bucket" := by
  unfold siteStep at h
  split at h
  · exact absurd h (by simp)
  · simp only [Option.some.injEq] at h
    subst h
    exact ⟨rfl, rfl, rfl⟩

theorem makeCDN_buckets (args : WebsiteArgs) (d : DistributionArgs) (env : Env) :
    (makeCDN args d env).buckets = [] ∨ (makeCDN args d env).buckets = [logsBucketDef] := by
  unfold makeCDN
  split
  · split
    · right; rfl
    · left; rfl
  · left; rfl

theorem makeCDN_distribution_keeps (args : WebsiteArgs) (d : DistributionArgs) (env : Env) :
    (makeCDN args d env).distribution.defaultCacheBehavior = d.defaultCacheBehavior ∧
    (makeCDN args d env).distribution.customErrorResponses = d.customErrorResponses := by
  unfold makeCDN
  split
  · split
    · exact ⟨rfl, rfl⟩
    · exact ⟨rfl, rfl⟩
  · exact ⟨rfl, rfl⟩

theorem baseDistributionArgs_dcb (args : WebsiteArgs) (apiCreated : Bool) (env : Env) :
    (baseDistributionArgs args apiCreated env).defaultCacheBehavior =
      { pathPattern := none
        viewerProtocolPolicy := "redirect-to-https"
        allowedMethods := ["GET", "HEAD", "OPTIONS"]
        cachedMethods := ["GET", "HEAD", "OPTIONS"]
        defaultTtl := 600
        maxTtl := 600
        minTtl := 0
        forwardedValues :=
          { queryString := true, headers := [], cookiesForward := "all" } } ∧
    (baseDistributionArgs args apiCreated env).customErrorResponses =
      [{ errorCode := 404
         responseCode := 404
         responsePagePath := "/$" ++ errorDocOr404 args }] := by
  unfold baseDistributionArgs
  split
  · split
    · exact ⟨rfl, rfl⟩
    · exact ⟨rfl, rfl⟩
  · exact ⟨rfl, rfl⟩

theorem provisionCDN_distribution (args : WebsiteArgs) (apiCreated : Bool) (env : Env)
    (c : CDNResult) (h : provisionCDN args apiCreated env = .ok c) :
    c.distribution.defaultCacheBehavior =
      (baseDistributionArgs args apiCreated env).defaultCacheBehavior ∧
    c.distribution.customErrorResponses =
      (baseDistributionArgs args apiCreated env).customErrorResponses ∧
    (c.logsBuckets = [] ∨ c.logsBuckets = [logsBucketDef]) := by
  unfold provisionCDN at h
  split at h
  · simp only [Except.ok.injEq] at h
    subst h
    exact ⟨(makeCDN_distribution_keeps _ _ _).1, (makeCDN_distribution_keeps _ _ _).2,
      makeCDN_buckets _ _ _⟩
  · simp only [Except.ok.injEq] at h
    subst h
    exact ⟨(makeCDN_distribution_keeps _ _ _).1, (makeCDN_distribution_keeps _ _ _).2,
      makeCDN_buckets _ _ _⟩
  · split at h
    · exact absurd h (by simp)
    · split at h
      · exact absurd h (by simp)
      · simp only [Except.ok.injEq] at h
        subst h
        refine ⟨?_, ?_, makeCDN_buckets _ _ _⟩
        · exact (makeCDN_distribution_keeps _ _ _).1
        · exact (makeCDN_distribution_keeps _ _ _).2

theorem construct_shape (args0 : WebsiteArgs) (env : Env) (r : WebsiteResult)
    (h : websiteConstruct args0 env = .ok r) :
    r.argsAfter = (apiStep (normalizeArgs args0)).1 ∧
    r.apiStage = ((apiStep (normalizeArgs args0)).2).map (·.stage) ∧
    r.apiRoutePaths = (((apiStep (normalizeArgs args0)).2).map (·.routePaths)).getD [] ∧
    r.putObjectCalls = (match siteStep (normalizeArgs args0) env with
                        | some sr => sr.putObjectCalls
                        | none => []) := by
  simp only [websiteConstruct] at h
  split at h
  · rename_i v hsite hproto
    split at h
    · exact absurd h (by simp)
    · simp only [Except.ok.injEq] at h
      subst h
      simp [hsite]
  · simp only [Except.ok.injEq] at h
    subst h
    exact ⟨rfl, rfl, rfl, rfl⟩

theorem normalizeArgs_dns (a : WebsiteArgs) : (normalizeArgs a).dns = a.dns := by
  unfold normalizeArgs
  cases a.site <;> rfl

theorem normalizeArgs_api (a : WebsiteArgs) : (normalizeArgs a).api = a.api := by
  unfold normalizeArgs
  cases a.site <;> rfl

theorem normalizeArgs_cdn (a : WebsiteArgs) : (normalizeArgs a).cdn = a.cdn := by
  unfold normalizeArgs
  cases a.site <;> rfl

theorem normalizeArgs_site_isSome (a : WebsiteArgs) :
    (normalizeArgs a).site.isSome = a.site.isSome := by
  unfold normalizeArgs
  cases a.site <;> rfl

theorem normalizeArgs_protocol (a : WebsiteArgs) :
    (normalizeArgs a).protocol = some (a.protocol.getD Protocol.http) := by
  unfold normalizeArgs
  cases a.site <;> cases a.protocol <;> rfl

theorem apiStep_fst_dns (a : WebsiteArgs) : (apiStep a).1.dns = a.dns := by
  unfold apiStep
  cases a.api with
  | none => rfl
  | some api => by_cases h : api.basePath ≠ "" ∧ api.routes.length > 0 <;> simp [h]

theorem apiStep_fst_site (a : WebsiteArgs) : (apiStep a).1.site = a.site := by
  unfold apiStep
  cases a.api with
  | none => rfl
  | some api => by_cases h : api.basePath ≠ "" ∧ api.routes.length > 0 <;> simp [h]

theorem apiStep_fst_protocol (a : WebsiteArgs) : (apiStep a).1.protocol = a.protocol := by
  unfold apiStep
  cases a.api with
  | none => rfl
  | some api => by_cases h : api.basePath ≠ "" ∧ api.routes.length > 0 <;> simp [h]

theorem apiStep_fst_cdn (a : WebsiteArgs) : (apiStep a).1.cdn = a.cdn := by
  unfold apiStep
  cases a.api with
  | none => rfl
  | some api => by_cases h : api.basePath ≠ "" ∧ api.routes.length > 0 <;> simp [h]

theorem domainName_dns_only (a b : WebsiteArgs) (h : a.dns = b.dns) :
    a.domainName = b.domainName := by
  unfold WebsiteArgs.domainName
  rw [h]

theorem explicitBucketName_noDns (a : WebsiteArgs) (h : a.dns = none) :
    explicitBucketName a = none := by
  unfold explicitBucketName
  rw [h]
  cases a.protocol with
  | none => rfl
  | some p => cases p <;> rfl

theorem cnameStep_noDns (args : WebsiteArgs) (env : Env) (h : args.dns = none) :
    cnameStep args env = { records := [], logs := [], url := none } := by
  unfold cnameStep
  rw [explicitBucketName_noDns args h, h]

theorem siteStep_fields (args : WebsiteArgs) (env : Env) (sr : SiteResult)
    (h : siteStep args env = some sr) :
    sr.cnameRecords = (cnameStep args env).records ∧
    sr.websiteURL = (cnameStep args env).url ∧
    sr.putObjectCalls = (uploadStep env ((args.site.getD default).root)).1 ∧
    sr.logs = siteWarnings (args.site.getD default) env ++
      (uploadStep env ((args.site.getD default).root)).2 ++ (cnameStep args env).logs := by
  unfold siteStep at h
  split at h
  · exact absurd h (by simp)
  · rename_i s hs
    simp only [Option.some.injEq] at h
    subst h
    simp [hs]

theorem provisionCDN_noDns (args : WebsiteArgs) (apiCreated : Bool) (env : Env)
    (h : args.dns = none) :
    provisionCDN args apiCreated env =
      .ok (defaultCdn args (baseDistributionArgs args apiCreated env) env) := by
  unfold provisionCDN
  rw [h]

theorem defaultCdn_fields (args : WebsiteArgs) (d : DistributionArgs) (env : Env) :
    (defaultCdn args d env).certificates = [] ∧
    (defaultCdn args d env).aliasRecords = [] ∧
    (defaultCdn args d env).validationRecords = [] :=
  ⟨rfl, rfl, rfl⟩

theorem siteStep_some_of_site (args : WebsiteArgs) (env : Env) (s : SiteArgs)
    (h : args.site = some s) : ∃ sr, siteStep args env = some sr := by
  unfold siteStep
  rw [h]
  exact ⟨_, rfl⟩

theorem siteStep_none_of_noSite (args : WebsiteArgs) (env : Env)
    (h : args.site = none) : siteStep args env = none := by
  unfold siteStep
  rw [h]

theorem constructed_protocol_https_iff (a : WebsiteArgs) :
    (apiStep (normalizeArgs a)).1.protocol = some Protocol.https ↔
      a.protocol = some Protocol.https := by
  rw [apiStep_fst_protocol, normalizeArgs_protocol]
  cases h : a.protocol with
  | none => simp
  | some p => cases p <;> simp

theorem domainName_valid (a : WebsiteArgs) (d : DnsArgs) (h : a.dns = some d)
    (hdom : d.domain ≠ "") (hhost : d.host ≠ "") :
    a.domainName = some (d.host ++ "." ++ d.domain) := by
  unfold WebsiteArgs.domainName
  rw [h]
  exact if_pos ⟨hdom, hhost⟩

theorem explicitBucketName_http_valid (a : WebsiteArgs) (d : DnsArgs)
    (hp : a.protocol = some Protocol.http) (h : a.dns = some d)
    (hdom : d.domain ≠ "") (hhost : d.host ≠ "") :
    explicitBucketName a = some (d.host ++ "." ++ d.domain) := by
  unfold explicitBucketName
  rw [hp, h]
  simp only [ne_eq, hdom, not_false_eq_true, hhost, and_self, if_true]
  exact domainName_valid a d h hdom hhost

theorem cnameStep_zoneFail (args : WebsiteArgs) (env : Env) (d : DnsArgs)
    (hp : args.protocol = some Protocol.http) (hd : args.dns = some d)
    (hdom : d.domain ≠ "") (hhost : d.host ≠ "") (hz : env.zone = none) :
    cnameStep args env =
      { records := []
        logs := ["Domain " ++ d.domain ++
                 " not found in Route 53. Not creating DNS record."]
        url := some ("http://" ++ optStr args.domainName) } := by
  unfold cnameStep
  rw [explicitBucketName_http_valid args d hp hd hdom hhost, hd, hz]
  simp only [ne_eq, hdom, not_false_eq_true, hhost, and_self, if_true]

/-- Truthiness of `cdn.certificateARN` being absent: the configuration does
not carry a usable certificate ARN, so a new certificate is provisioned. -/
def certARNFalsy (args : WebsiteArgs) : Bool :=
  match args.cdn with
  | some c => falsyStr c.certificateARN
  | none => true

theorem certStep_provisions (args : WebsiteArgs) (env : Env)
    (h : certARNFalsy args = true) :
    certStep args env = provisionAndValidateCert args env := by
  unfold certStep
  unfold certARNFalsy at h
  cases hc : args.cdn with
  | none => rfl
  | some c =>
      rw [hc] at h
      change falsyStr c.certificateARN = true at h
      split
      · rename_i x c2 hx
        injection hx with hx
        subst hx
        split
        · rename_i arn ha2
          rw [ha2] at h
          simp only [falsyStr, decide_eq_true_eq] at h
          subst h
          simp
        · rfl
      · rfl

theorem provisionAndValidateCert_zoneFail (args : WebsiteArgs) (env : Env)
    (hz : env.zone = none) :
    provisionAndValidateCert args env =
      .error "Zone lookup failed during certificate validation" := by
  unfold provisionAndValidateCert
  rw [hz]

theorem provisionCDN_certZoneFail (args : WebsiteArgs) (apiCreated : Bool)
    (env : Env) (d : DnsArgs) (hd : args.dns = some d) (hdom : d.domain ≠ "")
    (hhost : d.host ≠ "") (hcert : certARNFalsy args = true)
    (hz : env.zone = none) :
    provisionCDN args apiCreated env =
      .error "Zone lookup failed during certificate validation" := by
  unfold provisionCDN
  rw [hd, domainName_valid args d hd hdom hhost,
    certStep_provisions args env hcert,
    provisionAndValidateCert_zoneFail args env hz]

/-- Claim C2, corrected.  For every configuration that provisions a CDN, the
default cache behavior's default and maximum TTL are the hardcoded 600
seconds — the cdn block's cacheTTL setting is never read — and the minimum
TTL is 0, not the cache-TTL value.  In the v3 StaticWebsite variant the
default and maximum TTL equal cacheTtlInSeconds when supplied and nonzero
(600 otherwise), and the minimum TTL is again 0. -/
theorem claim2_cache_ttl :
    (∀ (args0 : WebsiteArgs) (env : Env) (r : WebsiteResult) (d : DistributionArgs),
       websiteConstruct args0 env = .ok r → d ∈ r.distributions →
         d.defaultCacheBehavior.defaultTtl = 600 ∧
         d.defaultCacheBehavior.maxTtl = 600 ∧
         d.defaultCacheBehavior.minTtl = 0) ∧
    (∀ t : Option Nat,
       (v3DefaultCacheBehavior t).defaultTtl = v3CacheTtl t ∧
       (v3DefaultCacheBehavior t).maxTtl = v3CacheTtl t ∧
       (v3DefaultCacheBehavior t).minTtl = 0) := by
  constructor
  · intro args0 env r d h hd
    simp only [websiteConstruct] at h
    split at h
    · rename_i v hsite hproto
      split at h
      · exact absurd h (by simp)
      · rename_i cdnRes hcdn
        simp only [Except.ok.injEq] at h
        subst h
        simp only [List.mem_singleton] at hd
        subst hd
        rw [(provisionCDN_distribution _ _ _ _ hcdn).1,
          (baseDistributionArgs_dcb _ _ _).1]
        exact ⟨rfl, rfl, rfl⟩
    · simp only [Except.ok.injEq] at h
      subst h
      simp at hd
  · intro t
    exact ⟨rfl, rfl, rfl⟩

def rC2 : WebsiteResult := (websiteConstruct cfgNoDnsHttps envD).toOption.getD default

def dC2 : DistributionArgs := rC2.distributions.headI

/-- Witness for claim C2's theorem at a concrete https configuration. -/
theorem claim2_cache_ttl_witness :
    dC2.defaultCacheBehavior.defaultTtl = 600 ∧
    dC2.defaultCacheBehavior.maxTtl = 600 ∧
    dC2.defaultCacheBehavior.minTtl = 0 ∧
    (v3DefaultCacheBehavior (some 100)).defaultTtl = v3CacheTtl (some 100) :=
  ⟨(claim2_cache_ttl.1 cfgNoDnsHttps envD rC2 dC2 rfl (by decide)).1,
   (claim2_cache_ttl.1 cfgNoDnsHttps envD rC2 dC2 rfl (by decide)).2.1,
   (claim2_cache_ttl.1 cfgNoDnsHttps envD rC2 dC2 rfl (by decide)).2.2,
   (claim2_cache_ttl.2 (some 100)).1⟩

/-- Counterexample to claim C2 as stated: with cdn.cacheTTL configured to
100, the Website distribution still carries (minTtl, defaultTtl, maxTtl) =
(0, 600, 600), not (100, 100, 100). -/
theorem claim2_counterexample :
    (websiteConstruct cfgCacheTtl100 envD).toOption.map
        (fun r => r.distributions.map fun d =>
          (d.defaultCacheBehavior.minTtl, d.defaultCacheBehavior.defaultTtl,
           d.defaultCacheBehavior.maxTtl)) = some [(0, 600, 600)] ∧
    ((0, 600, 600) : Nat × Nat × Nat) ≠ (100, 100, 100) := by
  exact ⟨rfl, by decide⟩

/-- Claim C3 is a code bug: with the error document at its default
"404.html" (cfgNoDnsHttps), the Website variant's distribution rewrites 404
responses to the page path "/$404.html" — the template literal puts a
literal dollar sign in the path — instead of "/" ++ the error document.
The v2 variant hardcodes "/404.html" and the v3 variant "/404", likewise
ignoring the configured error document name. -/
theorem claim3_error_page_path_bug :
    (websiteConstruct cfgNoDnsHttps envD).toOption.map
        (fun r => r.distributions.map (·.customErrorResponses)) =
      some [[{ errorCode := 404, responseCode := 404, responsePagePath := "/$404.html" }]] ∧
    "/$404.html" ≠ "/" ++ "404.html" ∧
    v3CustomErrorResponses =
      [{ errorCode := 404, responseCode := 404, responsePagePath := "/404" }] ∧
    "/404" ≠ "/" ++ "404.html" :=
  ⟨rfl, by decide, rfl, by decide⟩

/-- Claim C5, corrected.  Whenever the zone lookup succeeds, the certificate
provisioner creates exactly one DNS validation record, built from the first
validation challenge only (`domainValidationOptions[0]`), whatever the
number of challenges returned. -/
theorem claim5_validation_records (args : WebsiteArgs) (env : Env) (z : Zone)
    (hz : env.zone = some z) :
    ∃ cr, provisionAndValidateCert args env = .ok cr ∧
      cr.validationRecords.length = 1 ∧
      cr.validationRecords =
        [{ resourceName := "website-cert-validation-record"
           name := optStr ((env.validationChallenges.head?).map (·.resourceRecordName))
           zoneId := z.zoneId
           recordType := optStr ((env.validationChallenges.head?).map (·.resourceRecordType))
           ttl := some 600
           records := [optStr ((env.validationChallenges.head?).map (·.resourceRecordValue))]
           aliases := [] }] := by
  unfold provisionAndValidateCert
  rw [hz]
  exact ⟨_, rfl, rfl, rfl⟩

/-- Witness for claim C5's theorem, with two challenges returned. -/
theorem claim5_validation_records_witness :
    ∃ cr, provisionAndValidateCert cfgHttpsDns envTwoChallenges = .ok cr ∧
      cr.validationRecords.length = 1 ∧
      cr.validationRecords =
        [{ resourceName := "website-cert-validation-record"
           name := "_abc.www.example.com."
           zoneId := "Z123EXAMPLE"
           recordType := "CNAME"
           ttl := some 600
           records := ["_xyz.acm-validations.aws."]
           aliases := [] }] :=
  claim5_validation_records cfgHttpsDns envTwoChallenges { zoneId := "Z123EXAMPLE" } rfl

/-- Counterexample to claim C5 as stated: two challenges are returned, yet
one validation record is created, and 1 ≠ 2. -/
theorem claim5_counterexample :
    (provisionAndValidateCert cfgHttpsDns envTwoChallenges).toOption.map
        (·.validationRecords.length) = some 1 ∧
    envTwoChallenges.validationChallenges.length = 2 ∧ (1 : Nat) ≠ 2 :=
  ⟨rfl, rfl, by decide⟩

theorem siteStep_dry (args : WebsiteArgs) (env : Env) (sr : SiteResult)
    (hdry : env.dryRun = true) (h : siteStep args env = some sr) :
    sr.putObjectCalls = [] := by
  rw [(siteStep_fields args env sr h).2.2.1]
  unfold uploadStep
  rw [hdry]
  split
  · rfl
  · simp

/-- Claim C7, confirmed.  Under a dry run (preview), the construction issues
zero putObject calls, whatever the files found under the site root; the
enumeration and the count log line still happen. -/
theorem claim7_dry_run (args0 : WebsiteArgs) (env : Env) (r : WebsiteResult)
    (hdry : env.dryRun = true) (h : websiteConstruct args0 env = .ok r) :
    r.putObjectCalls = [] := by
  rw [(construct_shape args0 env r h).2.2.2]
  cases hsite : siteStep (normalizeArgs args0) env with
  | none => rfl
  | some sr => exact siteStep_dry _ _ _ hdry hsite

def rC7 : WebsiteResult := (websiteConstruct cfgNoDnsHttp envDry).toOption.getD default

/-- Witness for claim C7's theorem: a dry run over a two-file site. -/
theorem claim7_dry_run_witness :
    envDry.dryRun = true ∧ envDry.files.length = 2 ∧
    websiteConstruct cfgNoDnsHttp envDry = .ok rC7 ∧ rC7.putObjectCalls = [] :=
  ⟨rfl, rfl, rfl, claim7_dry_run cfgNoDnsHttp envDry rC7 rfl rfl⟩

/-- A config whose documents are explicitly set to non-empty names. -/
def cfgDocsSet : WebsiteArgs :=
  { protocol := some Protocol.https
    site := some { root := "www", defaultDoc := some "home.html", errorDoc := some "missing.html" }
    dns := none, cdn := none, api := none }

/-- Claim C8, corrected.  The defaulting step is idempotent, and explicitly
set values survive it provided they are non-empty: the code tests JS
falsiness, so an explicitly empty string is treated like an absent value and
replaced by the default. -/
theorem claim8_normalizer :
    (∀ args, normalizeArgs (normalizeArgs args) = normalizeArgs args) ∧
    (∀ args p, args.protocol = some p → (normalizeArgs args).protocol = some p) ∧
    (∀ args s d, args.site = some s → s.defaultDoc = some d → d ≠ "" →
       ∃ s2, (normalizeArgs args).site = some s2 ∧ s2.defaultDoc = some d) ∧
    (∀ args s e, args.site = some s → s.errorDoc = some e → e ≠ "" →
       ∃ s2, (normalizeArgs args).site = some s2 ∧ s2.errorDoc = some e) := by
  refine ⟨?_, ?_, ?_, ?_⟩
  · intro args
    rcases args with ⟨protocol, site, dns, cdn, api⟩
    rcases site with _ | ⟨root, dd, ed⟩
    · cases protocol <;> rfl
    · rcases dd with _ | d
      · rcases ed with _ | e
        · cases protocol <;> rfl
        · cases protocol <;> by_cases he : e = "" <;>
            simp [normalizeArgs, falsyStr, he]
      · rcases ed with _ | e
        · cases protocol <;> by_cases hd : d = "" <;>
            simp [normalizeArgs, falsyStr, hd]
        · cases protocol <;> by_cases hd : d = "" <;> by_cases he : e = "" <;>
            simp [normalizeArgs, falsyStr, hd, he]
  · intro args p hp
    unfold normalizeArgs
    rw [hp]
    cases args.site <;> rfl
  · intro args s d hsite hd hne
    unfold normalizeArgs
    rw [hsite]
    exact ⟨_, rfl, by simp [hd, falsyStr, hne]⟩
  · intro args s e hsite he hne
    unfold normalizeArgs
    rw [hsite]
    exact ⟨_, rfl, by simp [he, falsyStr, hne]⟩

/-- Witness for claim C8's theorem at concrete configurations. -/
theorem claim8_normalizer_witness :
    normalizeArgs (normalizeArgs cfgHttpDns) = normalizeArgs cfgHttpDns ∧
    (normalizeArgs cfgHttpsDns).protocol = some Protocol.https ∧
    (∃ s2, (normalizeArgs cfgDocsSet).site = some s2 ∧ s2.defaultDoc = some "home.html") ∧
    (∃ s2, (normalizeArgs cfgDocsSet).site = some s2 ∧ s2.errorDoc = some "missing.html") :=
  ⟨claim8_normalizer.1 cfgHttpDns,
   claim8_normalizer.2.1 cfgHttpsDns Protocol.https rfl,
   claim8_normalizer.2.2.1 cfgDocsSet _ "home.html" rfl rfl (by decide),
   claim8_normalizer.2.2.2 cfgDocsSet _ "missing.html" rfl rfl (by decide)⟩

/-- Counterexample to claim C8 as stated: the error document is explicitly
set to the empty string, and the defaulting step overrides it with
"404.html". -/
theorem claim8_counterexample :
    cfgEmptyDocs.site =
      some { root := "www", defaultDoc := some "", errorDoc := some "" } ∧
    (normalizeArgs cfgEmptyDocs).site =
      some { root := "www", defaultDoc := some "index.html", errorDoc := some "404.html" } ∧
    (some "404.html" : Option String) ≠ some "" :=
  ⟨rfl, rfl, by decide⟩

/-- Claim C4, corrected.  With a non-empty route list and a non-empty path
prefix p, every route's effective path is "/" ++ p ++ original-path (the
code prepends a slash before the prefix), and the gateway stage name is p. -/
theorem claim4_api_paths (args0 : WebsiteArgs) (env : Env) (p : String)
    (rs : List RouteArgs) (r : WebsiteResult)
    (hapi : args0.api = some { basePath := p, routes := rs })
    (hp : p ≠ "") (hrs : rs ≠ [])
    (h : websiteConstruct args0 env = .ok r) :
    r.apiStage = some p ∧
    r.apiRoutePaths = rs.map (fun route => "/" ++ p ++ route.path) := by
  obtain ⟨-, hstage, hpaths, -⟩ := construct_shape args0 env r h
  rw [hstage, hpaths]
  unfold apiStep
  rw [normalizeArgs_api, hapi]
  have hlen : rs.length > 0 := List.length_pos.mpr hrs
  simp [hp, hlen, List.map_map, Function.comp]

def rC4 : WebsiteResult := (websiteConstruct cfgApi envD).toOption.getD default

/-- Witness for claim C4's theorem at the concrete api configuration. -/
theorem claim4_api_paths_witness :
    rC4.apiStage = some "api" ∧ rC4.apiRoutePaths = ["/api/hello"] := by
  have h := claim4_api_paths cfgApi envD "api"
    [{ method := "GET", path := "/hello" }] rC4 rfl (by decide) (by decide) rfl
  exact ⟨h.1, h.2⟩

/-- Counterexample to claim C4 as stated: the effective path is
"/api/hello", not the prefix concatenated with the original path
("api" ++ "/hello" = "api/hello"). -/
theorem claim4_counterexample :
    (websiteConstruct cfgApi envD).toOption.map (fun r => (r.apiStage, r.apiRoutePaths)) =
      some (some "api", ["/api/hello"]) ∧
    ["/api/hello"] ≠ ["api" ++ "/hello"] :=
  ⟨rfl, by decide⟩

/-- Claim C9, confirmed.  Construction overwrites the caller's route
objects in place: after construction the args object's routes carry the
prefixed paths (the original paths are lost), and running a second
construction on that same args object prefixes them a second time. -/
theorem claim9_route_mutation (args0 : WebsiteArgs) (env : Env) (p : String)
    (rs : List RouteArgs) (r : WebsiteResult)
    (hapi : args0.api = some { basePath := p, routes := rs })
    (hp : p ≠ "") (hrs : rs ≠ [])
    (h : websiteConstruct args0 env = .ok r) :
    (∃ api2, r.argsAfter.api = some api2 ∧ api2.basePath = p ∧
       api2.routes.map (·.path) = rs.map (fun route => "/" ++ p ++ route.path)) ∧
    (∀ r2, websiteConstruct r.argsAfter env = .ok r2 →
       ∃ api3, r2.argsAfter.api = some api3 ∧
         api3.routes.map (·.path) =
           rs.map (fun route => "/" ++ p ++ ("/" ++ p ++ route.path))) := by
  have hA := (construct_shape args0 env r h).1
  have hnapi : (normalizeArgs args0).api = some { basePath := p, routes := rs } := by
    rw [normalizeArgs_api]
    exact hapi
  have hlen : rs.length > 0 := List.length_pos.mpr hrs
  have happ : (apiStep (normalizeArgs args0)).1.api =
      some { basePath := p
             routes := rs.map (fun route => { route with path := "/" ++ p ++ route.path }) } := by
    unfold apiStep
    rw [hnapi]
    simp [hp, hlen]
  constructor
  · refine ⟨_, by rw [hA, happ], rfl, ?_⟩
    simp [List.map_map, Function.comp]
  · intro r2 h2
    have hA2 := (construct_shape r.argsAfter env r2 h2).1
    have happ2 : (apiStep (normalizeArgs r.argsAfter)).1.api =
        some { basePath := p
               routes := (rs.map (fun route => { route with path := "/" ++ p ++ route.path })).map
                 (fun route => { route with path := "/" ++ p ++ route.path }) } := by
      unfold apiStep
      rw [normalizeArgs_api, hA, happ]
      simp [hp, hlen]
    refine ⟨_, by rw [hA2, happ2], ?_⟩
    simp [List.map_map, Function.comp]

def rC9 : WebsiteResult := (websiteConstruct cfgApi envD).toOption.getD default

def rC9b : WebsiteResult := (websiteConstruct rC9.argsAfter envD).toOption.getD default

/-- Witness for claim C9's theorem: one construction prefixes "/hello" to
"/api/hello"; a second construction on the mutated args yields
"/api/api/hello". -/
theorem claim9_route_mutation_witness :
    (∃ api2, rC9.argsAfter.api = some api2 ∧ api2.basePath = "api" ∧
       api2.routes.map (·.path) = ["/api/hello"]) ∧
    (∃ api3, rC9b.argsAfter.api = some api3 ∧
       api3.routes.map (·.path) = ["/api/api/hello"]) := by
  have h := claim9_route_mutation cfgApi envD "api"
    [{ method := "GET", path := "/hello" }] rC9 rfl (by decide) (by decide) rfl
  exact ⟨h.1, h.2 rC9b rfl⟩

/-- Claim C10, confirmed.  Every bucket any variant creates has forceDestroy
set, and every website origin bucket (the resource named "website-bucket")
carries the public-read ACL; the log-capture bucket carries no ACL, which
the claim does not require of it. -/
theorem claim10_buckets :
    (∀ (args0 : WebsiteArgs) (env : Env) (r : WebsiteResult) (b : Bucket),
       websiteConstruct args0 env = .ok r → b ∈ r.buckets →
         b.forceDestroy = true ∧
         (b.resourceName = "website-bucket" → b.acl = some "public-read")) ∧
    (∀ (host domain : Option String) (cdnFlag logsFlag : Option Bool)
       (i e : Option String) (b : Bucket),
       b ∈ staticWebsiteBuckets host domain cdnFlag logsFlag i e →
         b.forceDestroy = true ∧
         (b.resourceName = "website-bucket" → b.acl = some "public-read")) ∧
    (∀ i e : Option String,
       (v3Bucket i e).forceDestroy = true ∧ (v3Bucket i e).acl = some "public-read") := by
  refine ⟨?_, ?_, ?_⟩
  · intro args0 env r b h hb
    simp only [websiteConstruct] at h
    split at h
    · rename_i v hsite hproto
      split at h
      · exact absurd h (by simp)
      · rename_i cdnRes hcdn
        simp only [Except.ok.injEq] at h
        subst h
        rcases List.mem_cons.mp hb with rfl | hb2
        · have hf := siteStep_bucket_fields _ _ _ hsite
          exact ⟨hf.1, fun _ => hf.2.1⟩
        · rcases (provisionCDN_distribution _ _ _ _ hcdn).2.2 with hl | hl
          · rw [hl] at hb2
            simp at hb2
          · rw [hl] at hb2
            simp only [List.mem_singleton] at hb2
            subst hb2
            exact ⟨rfl, fun hname => absurd hname (by decide)⟩
    · simp only [Except.ok.injEq] at h
      subst h
      cases hsite : siteStep (normalizeArgs args0) env with
      | none =>
          rw [hsite] at hb
          simp at hb
      | some sr =>
          rw [hsite] at hb
          simp only [List.mem_singleton] at hb
          subst hb
          have hf := siteStep_bucket_fields _ _ _ hsite
          exact ⟨hf.1, fun _ => hf.2.1⟩
  · intro host domain cdnFlag logsFlag i e b hb
    simp only [staticWebsiteBuckets] at hb
    rcases List.mem_cons.mp hb with rfl | hb2
    · exact ⟨rfl, fun _ => rfl⟩
    · split at hb2
      · simp only [List.mem_singleton] at hb2
        subst hb2
        exact ⟨rfl, fun hname => absurd hname (by decide)⟩
      · simp at hb2
  · intro i e
    exact ⟨rfl, rfl⟩

def rC10 : WebsiteResult := (websiteConstruct cfgNoDnsHttp envD).toOption.getD default

def bC10 : Bucket := rC10.buckets.headI

/-- Witness for claim C10's theorem at concrete inputs in each variant. -/
theorem claim10_buckets_witness :
    (bC10.forceDestroy = true ∧
     (bC10.resourceName = "website-bucket" → bC10.acl = some "public-read")) ∧
    ((staticWebsiteBucket none none).forceDestroy = true ∧
     ((staticWebsiteBucket none none).resourceName = "website-bucket" →
       (staticWebsiteBucket none none).acl = some "public-read")) ∧
    (v3Bucket none none).forceDestroy = true :=
  ⟨claim10_buckets.1 cfgNoDnsHttp envD rC10 bC10 rfl (by decide),
   claim10_buckets.2.1 none none none none none none (staticWebsiteBucket none none)
     (by decide),
   (claim10_buckets.2.2 none none).1⟩

theorem certARNFalsy_congr (a b : WebsiteArgs) (h : a.cdn = b.cdn) :
    certARNFalsy a = certARNFalsy b := by
  unfold certARNFalsy
  rw [h]

theorem apiStep_normalize_protocol (a : WebsiteArgs) :
    (apiStep (normalizeArgs a)).1.protocol = some (a.protocol.getD Protocol.http) := by
  rw [apiStep_fst_protocol, normalizeArgs_protocol]

/-- Claim C6, confirmed.  When the hosted-zone lookup fails, certificate
issuance is fatal — the whole construction errors out — while the plain
(http) CNAME alias-record creation is non-fatal: the record is skipped, a
diagnostic is logged, and construction completes. -/
theorem claim6_zone_failure :
    (∀ (args0 : WebsiteArgs) (env : Env) (d : DnsArgs),
       args0.site.isSome = true → args0.protocol = some Protocol.https →
       args0.dns = some d → d.domain ≠ "" → d.host ≠ "" →
       certARNFalsy args0 = true → env.zone = none →
       websiteConstruct args0 env =
         .error "Zone lookup failed during certificate validation") ∧
    (∀ (args0 : WebsiteArgs) (env : Env) (d : DnsArgs),
       args0.site.isSome = true →
       (args0.protocol = none ∨ args0.protocol = some Protocol.http) →
       args0.dns = some d → d.domain ≠ "" → d.host ≠ "" → env.zone = none →
       ∃ r, websiteConstruct args0 env = .ok r ∧ r.aliasRecords = [] ∧
         ("Domain " ++ d.domain ++
          " not found in Route 53. Not creating DNS record.") ∈ r.logs) := by
  constructor
  · intro args0 env d hsite hproto hdns hdom hhost hcert hz
    have hsite1 : ((normalizeArgs args0).site).isSome = true := by
      rw [normalizeArgs_site_isSome]
      exact hsite
    obtain ⟨s1, hs1⟩ := Option.isSome_iff_exists.mp hsite1
    obtain ⟨sr, hsr⟩ := siteStep_some_of_site (normalizeArgs args0) env s1 hs1
    have hproto2 : (apiStep (normalizeArgs args0)).1.protocol = some Protocol.https :=
      (constructed_protocol_https_iff args0).mpr hproto
    have hdns2 : (apiStep (normalizeArgs args0)).1.dns = some d := by
      rw [apiStep_fst_dns, normalizeArgs_dns]
      exact hdns
    have hcert2 : certARNFalsy (apiStep (normalizeArgs args0)).1 = true := by
      rw [certARNFalsy_congr (apiStep (normalizeArgs args0)).1 args0
        (by rw [apiStep_fst_cdn, normalizeArgs_cdn])]
      exact hcert
    have hcdnerr := provisionCDN_certZoneFail (apiStep (normalizeArgs args0)).1
      ((apiStep (normalizeArgs args0)).2).isSome env d hdns2 hdom hhost hcert2 hz
    simp only [websiteConstruct, hsr, hproto2, hcdnerr]
  · intro args0 env d hsite hproto hdns hdom hhost hz
    have hsite1 : ((normalizeArgs args0).site).isSome = true := by
      rw [normalizeArgs_site_isSome]
      exact hsite
    obtain ⟨s1, hs1⟩ := Option.isSome_iff_exists.mp hsite1
    obtain ⟨sr, hsr⟩ := siteStep_some_of_site (normalizeArgs args0) env s1 hs1
    have hgetD : args0.protocol.getD Protocol.http = Protocol.http := by
      rcases hproto with hp | hp <;> rw [hp] <;> rfl
    have hproto2 : (apiStep (normalizeArgs args0)).1.protocol = some Protocol.http := by
      rw [apiStep_normalize_protocol, hgetD]
    have hproto1 : (normalizeArgs args0).protocol = some Protocol.http := by
      rw [normalizeArgs_protocol, hgetD]
    have hdns1 : (normalizeArgs args0).dns = some d := by
      rw [normalizeArgs_dns]
      exact hdns
    have hcn := cnameStep_zoneFail (normalizeArgs args0) env d hproto1 hdns1 hdom hhost hz
    have hflds := siteStep_fields (normalizeArgs args0) env sr hsr
    have hex : websiteConstruct args0 env =
        .ok { argsAfter := (apiStep (normalizeArgs args0)).1
              buckets := [sr.bucket]
              putObjectCalls := sr.putObjectCalls
              logs := sr.logs
              aliasRecords := sr.cnameRecords
              validationRecords := []
              certificates := []
              distributions := []
              apiStage := ((apiStep (normalizeArgs args0)).2).map (·.stage)
              apiRoutePaths := (((apiStep (normalizeArgs args0)).2).map (·.routePaths)).getD []
              outputs :=
                { bucketName := some env.bucketPhysicalName
                  bucketWebsiteURL := some ("http://" ++ env.bucketWebsiteEndpoint)
                  websiteURL := sr.websiteURL
                  cdnDomainName := none
                  cdnURL := none
                  websiteLogsBucketName := none
                  apiGatewayURL :=
                    ((apiStep (normalizeArgs args0)).2).map fun _ => env.apiGatewayURL } } := by
      simp only [websiteConstruct, hsr, hproto2]
      rfl
    refine ⟨_, hex, ?_, ?_⟩
    · show sr.cnameRecords = []
      rw [hflds.1, hcn]
    · show _ ∈ sr.logs
      rw [hflds.2.2.2, hcn]
      simp

/-- Witness for claim C6's theorem: the https+dns configuration fails on the
zone lookup, while the plain-http configuration completes with the record
skipped and the diagnostic logged. -/
theorem claim6_zone_failure_witness :
    websiteConstruct cfgHttpsDns envNoZone =
      .error "Zone lookup failed during certificate validation" ∧
    ∃ r, websiteConstruct cfgHttpDns envNoZone = .ok r ∧ r.aliasRecords = [] ∧
      ("Domain " ++ dnsD.domain ++
       " not found in Route 53. Not creating DNS record.") ∈ r.logs :=
  ⟨claim6_zone_failure.1 cfgHttpsDns envNoZone dnsD rfl rfl rfl (by decide) (by decide)
     rfl rfl,
   claim6_zone_failure.2 cfgHttpDns envNoZone dnsD rfl (Or.inl rfl) rfl (by decide)
     (by decide) rfl⟩

theorem domainName_noDns (a : WebsiteArgs) (h : a.dns = none) : a.domainName = none := by
  unfold WebsiteArgs.domainName
  rw [h]

theorem siteStep_isSome (args : WebsiteArgs) (env : Env) :
    (siteStep args env).isSome = args.site.isSome := by
  unfold siteStep
  cases args.site <;> rfl

/-- Claim C1, corrected.  Without a dns block no certificate, no alias
record and no validation record is created, and the bucketWebsiteURL output
is the bucket website endpoint under plain http; the websiteURL output,
however, is not set to that endpoint: it stays unset under plain http, and
under https it is the string "https://undefined" (the undefined domain name
interpolated into the URL template). -/
theorem claim1_no_dns (args0 : WebsiteArgs) (env : Env) (hdns : args0.dns = none) :
    ∃ r, websiteConstruct args0 env = .ok r ∧
      r.certificates = [] ∧ r.aliasRecords = [] ∧ r.validationRecords = [] ∧
      r.outputs.bucketWebsiteURL =
        (if args0.site.isSome then some ("http://" ++ env.bucketWebsiteEndpoint) else none) ∧
      r.outputs.websiteURL =
        (if args0.site.isSome ∧ args0.protocol = some Protocol.https
         then some "https://undefined" else none) := by
  have hdns1 : (normalizeArgs args0).dns = none := by
    rw [normalizeArgs_dns]
    exact hdns
  have hdns2 : (apiStep (normalizeArgs args0)).1.dns = none := by
    rw [apiStep_fst_dns]
    exact hdns1
  have hcn := cnameStep_noDns (normalizeArgs args0) env hdns1
  obtain ⟨r, hr⟩ : ∃ r, websiteConstruct args0 env = .ok r := by
    simp only [websiteConstruct]
    split
    · rw [provisionCDN_noDns _ _ _ hdns2]
      exact ⟨_, rfl⟩
    · exact ⟨_, rfl⟩
  refine ⟨r, hr, ?_⟩
  simp only [websiteConstruct] at hr
  split at hr
  · rename_i sr hsitee hprotoe
    rw [provisionCDN_noDns _ _ _ hdns2] at hr
    simp only [Except.ok.injEq] at hr
    subst hr
    have hsome1 : (normalizeArgs args0).site.isSome = true := by
      cases ho : (normalizeArgs args0).site with
      | none =>
          rw [siteStep_none_of_noSite _ env ho] at hsitee
          exact absurd hsitee (by simp)
      | some s => rfl
    have hsome0 : args0.site.isSome = true := by
      rw [← normalizeArgs_site_isSome]
      exact hsome1
    have hps : args0.protocol = some Protocol.https :=
      (constructed_protocol_https_iff args0).mp hprotoe
    refine ⟨rfl, ?_, rfl, ?_, ?_⟩
    · show sr.cnameRecords ++ _ = []
      rw [(siteStep_fields _ _ _ hsitee).1, hcn]
      rfl
    · rw [if_pos hsome0]
    · rw [if_pos ⟨hsome0, hps⟩]
      show some ("https://" ++ optStr (apiStep (normalizeArgs args0)).1.domainName) = _
      rw [domainName_noDns _ hdns2]
      rfl
  · rename_i hcatch
    simp only [Except.ok.injEq] at hr
    subst hr
    refine ⟨rfl, ?_, rfl, ?_, ?_⟩
    · cases hsitee : siteStep (normalizeArgs args0) env with
      | none => simp only [hsitee]
      | some sr =>
          simp only [hsitee]
          rw [(siteStep_fields _ _ _ hsitee).1, hcn]
    · cases hsitee : siteStep (normalizeArgs args0) env with
      | none =>
          have hsif : args0.site.isSome = false := by
            rw [← normalizeArgs_site_isSome, ← siteStep_isSome (normalizeArgs args0) env,
              hsitee]
            rfl
          simp [hsitee, hsif]
      | some sr =>
          have hsit : args0.site.isSome = true := by
            rw [← normalizeArgs_site_isSome, ← siteStep_isSome (normalizeArgs args0) env,
              hsitee]
            rfl
          simp [hsitee, hsit]
    · cases hsitee : siteStep (normalizeArgs args0) env with
      | none =>
          have hsif : args0.site.isSome = false := by
            rw [← normalizeArgs_site_isSome, ← siteStep_isSome (normalizeArgs args0) env,
              hsitee]
            rfl
          simp [hsitee, hsif]
      | some sr =>
          have hnp : args0.protocol ≠ some Protocol.https := by
            intro hps
            exact hcatch sr hsitee ((constructed_protocol_https_iff args0).mpr hps)
          simp [hsitee, (siteStep_fields _ _ _ hsitee).2.1, hcn, hnp]

/-- Witness for claim C1's theorem at the https-without-dns configuration. -/
theorem claim1_no_dns_witness :
    ∃ r, websiteConstruct cfgNoDnsHttps envD = .ok r ∧
      r.certificates = [] ∧ r.aliasRecords = [] ∧ r.validationRecords = [] ∧
      r.outputs.bucketWebsiteURL =
        (if cfgNoDnsHttps.site.isSome then some ("http://" ++ envD.bucketWebsiteEndpoint)
         else none) ∧
      r.outputs.websiteURL =
        (if cfgNoDnsHttps.site.isSome ∧ cfgNoDnsHttps.protocol = some Protocol.https
         then some "https://undefined" else none) :=
  claim1_no_dns cfgNoDnsHttps envD rfl

/-- Counterexample to claim C1 as stated: with a site and no dns block under
plain http, the websiteURL output is never set — it does not fall back to
the bucket website endpoint. -/
theorem claim1_counterexample :
    (websiteConstruct cfgNoDnsHttp envD).toOption.map (·.outputs.websiteURL) =
      some none ∧
    (some (some ("http://" ++ envD.bucketWebsiteEndpoint)) :
      Option (Option String)) ≠ some none :=
  ⟨rfl, by decide⟩
